import Mathlib

/-!
Shallow embedding of the Astrape time-locked deposit program
(`src/program/src/processor.rs`, `state.rs`, `errors.rs`).

Machine integers are modelled as `Nat` with explicit reduction modulo `2 ^ 64`
(`u64`) or `2 ^ 128` (`u128`) exactly where the Rust code can overflow, wrap or
truncate.  Rust release-profile semantics are used for unchecked arithmetic
(wrapping on overflow), matching deployed Solana BPF builds.  Fallible
processor entry points return `Except`; a returned error models the
instruction aborting, in which case the Solana runtime rolls back every
account mutation, so an `Except.error` result leaves all state unchanged by
construction.

The processor functions are embedded from the point after account-address
(PDA/ATA), signer and program-id validation: the claims under study are about
the state-machine, bounds, configuration and arithmetic logic that follows
those checks, and every theorem below quantifies over the data those checks
hand to the core logic (deserialized config, deposit record, balances, clock
slot).
-/

deriving instance DecidableEq for Except

namespace Astrape

/-- `2 ^ 64`, the modulus of Rust `u64` arithmetic. -/
def U64_MOD : Nat := 2 ^ 64

/-- `2 ^ 128`, the modulus of Rust `u128` arithmetic. -/
def U128_MOD : Nat := 2 ^ 128

/-- Truncation to `u64` (`as u64` on an integer, or wrapping arithmetic). -/
def wrap64 (n : Nat) : Nat := n % U64_MOD

/-- Rust `u64` wrapping subtraction `a - b` (release profile) for
`a, b < 2 ^ 64`. -/
def wsub64 (a b : Nat) : Nat := (a + U64_MOD - b) % U64_MOD

/-- `state.rs`: `UserDepositState` — lifecycle states of a deposit record. -/
inductive UserDepositState where
  | Deposited
  | WithdrawRequested
  | WithdrawReady
  | WithdrawCompleted
deriving DecidableEq, Repr

/-- The Rust enum discriminant, produced by `deposit.state as u8` in the
error-reporting paths of `processor.rs`. -/
def UserDepositState.toU8 : UserDepositState → Nat
  | .Deposited => 0
  | .WithdrawRequested => 1
  | .WithdrawReady => 2
  | .WithdrawCompleted => 3

/-- `state.rs`: `UserDeposit` — one per-user deposit record.  All integer
fields are `u64`. -/
structure UserDeposit where
  amount : Nat
  deposit_slot : Nat
  unlock_slot : Nat
  interest_received : Nat
  state : UserDepositState
  commission_rate : Nat
deriving DecidableEq, Repr

/-- `state.rs` / `processor.rs`: `AstrapeConfig`, the global pool
configuration.  Mints (`Pubkey`) are modelled as opaque naturals; the field
the processor reads and writes as `pyth_price_max_age` is used under that
name. -/
structure AstrapeConfig where
  interest_mint : Nat
  collateral_mint : Nat
  base_interest_rate : Nat
  pyth_price_max_age : Nat
  min_commission_rate : Nat
  max_commission_rate : Nat
  min_deposit_amount : Nat
  max_deposit_amount : Nat
  deposit_periods : List Nat
deriving DecidableEq, Repr

/-- `errors.rs`: `AstrapeError` (the variants reachable from the embedded
processor logic). -/
inductive AstrapeError where
  | SignerRequired
  | AccountAlreadyInitialized
  | NotUnlockedYet (slot : Nat) (unlock_slot : Nat)
  | UserDepositAlreadyExists
  | InvalidLockPeriod (p : Nat)
  | InvalidConfigParam (p : Nat)
  | DepositAmountOutOfBounds (a : Nat)
  | CommissionRateOutOfBounds (r : Nat)
  | ValueOutOfRange (v : Nat)
  | InsufficientPoolBalance (b : Nat)
  | InsufficientInterestBalance (b : Nat)
  | InvalidDepositState (current : Nat) (expected : Nat)
  | ArithmeticOverflow
  | DivisionByZero
  | InvalidInput
  | GetPriceError
deriving DecidableEq, Repr

/-- An instruction-level failure: either one of the program's own errors, or
a failure raised by the SPL token program during an un-pre-checked `transfer`
CPI (insufficient funds in the source account). -/
inductive ProgError where
  | astrape (e : AstrapeError)
  | splInsufficientFunds
deriving DecidableEq, Repr

/-- `processor.rs` lines 235-258: `Processor::calculate_interest_to_return`.
`actual_lock_duration` and `total_lock_duration` are `u64` subtractions
(wrapping in the release profile), the product is a `u128`
`checked_mul`, the division a `u128` `checked_div`, and the quotient is
truncated by the final `as u64` cast. -/
def calculate_interest_to_return (user_deposit : UserDeposit)
    (current_slot : Nat) : Except AstrapeError Nat :=
  let actual_lock_duration := wsub64 current_slot user_deposit.deposit_slot
  let total_lock_duration := wsub64 user_deposit.unlock_slot user_deposit.deposit_slot
  let prod := user_deposit.interest_received * actual_lock_duration
  if U128_MOD ≤ prod then
    .error .ArithmeticOverflow
  else if total_lock_duration = 0 then
    .error .DivisionByZero
  else
    .ok (wrap64 (prod / total_lock_duration))

/-- The clawback function of spec §4.4, as the code realises it: §4.4 maps
`compute_clawback(ic, elapsed, total)` onto `calculate_interest_to_return`
applied to a record with `deposit_slot = 0`, `unlock_slot = total`,
`interest_received = ic`, read at `current_slot = elapsed`. -/
def compute_clawback (interest_credited elapsed total_lock_duration : Nat) :
    Except AstrapeError Nat :=
  calculate_interest_to_return
    { amount := 0
      deposit_slot := 0
      unlock_slot := total_lock_duration
      interest_received := interest_credited
      state := .Deposited
      commission_rate := 0 }
    elapsed

-- Sanity checks of the embedding on concrete values.
example : compute_clawback 100 5 10 = .ok 50 := by decide
example : compute_clawback 7 10 10 = .ok 7 := by decide
example : compute_clawback 7 3 0 = .error .DivisionByZero := by decide

/-- `b ≤ a < 2 ^ 64` makes the wrapping `u64` subtraction agree with `Nat`
subtraction. -/
theorem wsub64_of_le {a b : Nat} (hba : b ≤ a) (ha : a < U64_MOD) :
    wsub64 a b = a - b := by
  have hM : U64_MOD = 18446744073709551616 := by norm_num [U64_MOD]
  simp only [wsub64, hM] at *
  omega

/-- For `u64`-ranged operands, the wrapping subtraction vanishes exactly on
equal operands. -/
theorem wsub64_eq_zero_iff {a b : Nat} (ha : a < U64_MOD) (hb : b < U64_MOD) :
    wsub64 a b = 0 ↔ a = b := by
  have hM : U64_MOD = 18446744073709551616 := by norm_num [U64_MOD]
  simp only [wsub64, hM] at *
  omega

/-- The wrapping subtraction always lands below `2 ^ 64`. -/
theorem wsub64_lt (a b : Nat) : wsub64 a b < U64_MOD := by
  have hM : (0:Nat) < U64_MOD := by norm_num [U64_MOD]
  exact Nat.mod_lt _ hM

/-- `processor.rs` line 29: `SLOTS_PER_SEC = 1000.0 / 440.0` (an `f64`
constant, modelled as the exact rational). -/
def SLOTS_PER_SEC : ℚ := 1000 / 440

/-- `processor.rs` line 31: `SLOTS_PER_YEAR = SLOTS_PER_SEC * 365.0 * 24.0 *
60.0 * 60.0`. -/
def SLOTS_PER_YEAR : ℚ := SLOTS_PER_SEC * 365 * 24 * 60 * 60

/-- Rust `expr as u64` applied to a float: the cast saturates — negative
values go to `0`, values at or above `2 ^ 64` go to `u64::MAX`, and finite
in-range values are truncated toward zero. -/
def f64_as_u64 (q : ℚ) : Nat :=
  if q < 0 then 0
  else if ((2 : ℚ) ^ 64) ≤ q then U64_MOD - 1
  else (⌊q⌋).toNat

/-- `processor.rs` lines 215-233: `Processor::calculate_interest_amount`.

The first line, `amount * price`, is an unchecked `u64 * u64` multiply; in
the release profile it wraps modulo `2 ^ 64`, which the embedding makes
explicit, and overflow is silent.  The remaining factor chain is computed in
IEEE-754 `f64`; it is modelled here in exact rational arithmetic, with the
final `interest as u64` cast as `f64_as_u64`.  The theorems below evaluate
this function only at points where the rational model and `f64` agree
exactly (a zero product annihilates the chain in either semantics, and the
no-wrap refinement statement is made relative to this model).  The function
is infallible: its Rust signature returns a bare `u64`, so no error of any
kind — in particular `ArithmeticOverflow` — can ever be reported from it. -/
def calculate_interest_amount (amount price commission_rate deposit_period : Nat)
    (config : AstrapeConfig) : Nat :=
  let collateral_value_in_interest : Nat := wrap64 (amount * price)
  let base_interest_rate : ℚ := (config.base_interest_rate : ℚ) / 1000
  let deposit_period_in_years : ℚ := (deposit_period : ℚ) / SLOTS_PER_YEAR
  let ratio_without_commission : ℚ := (1000 - (commission_rate : ℚ)) / 1000
  let interest : ℚ := (collateral_value_in_interest : ℚ)
    * base_interest_rate
    * deposit_period_in_years
    * ratio_without_commission
  f64_as_u64 interest

/-- Modelled from the spec: §4.4 `compute_interest` — the exactly-computed
interest value (a rational, before any truncation), carried in arbitrary
precision so no intermediate product can overflow:
`value * (rate / 1000) * (period / SLOTS_PER_YEAR) * ((1000 - commission) / 1000)`. -/
def compute_interest_spec (amount price commission_rate lock_period : Nat)
    (config : AstrapeConfig) : ℚ :=
  ((amount : ℚ) * (price : ℚ))
    * ((config.base_interest_rate : ℚ) / 1000)
    * ((lock_period : ℚ) / SLOTS_PER_YEAR)
    * ((1000 - (commission_rate : ℚ)) / 1000)

/-- `processor.rs` lines 360-377 (validation) and 496-509 (persistence):
the core of `Processor::process_initialize_core`, entered after the admin-signer,
PDA/ATA and program-id checks.  `config_owned_by_system` is the test
`config_info.owner == system_program` — a config account that already holds
data is no longer system-owned. -/
def process_initialize_core (config_owned_by_system : Bool)
    (interest_mint collateral_mint base_interest_rate pyth_price_max_age
      min_commission_rate max_commission_rate
      min_deposit_amount max_deposit_amount : Nat)
    (deposit_periods : List Nat) : Except AstrapeError AstrapeConfig :=
  if ¬ config_owned_by_system then
    .error .AccountAlreadyInitialized
  else if min_commission_rate > max_commission_rate then
    .error .InvalidInput
  else if min_deposit_amount > max_deposit_amount then
    .error .InvalidInput
  else if deposit_periods.isEmpty then
    .error .InvalidInput
  else if pyth_price_max_age = 0 then
    .error (.ValueOutOfRange 0)
  else
    .ok
      { interest_mint := interest_mint
        collateral_mint := collateral_mint
        base_interest_rate := base_interest_rate
        pyth_price_max_age := pyth_price_max_age
        min_commission_rate := min_commission_rate
        max_commission_rate := max_commission_rate
        min_deposit_amount := min_deposit_amount
        max_deposit_amount := max_deposit_amount
        deposit_periods := deposit_periods }

/-- `processor.rs` lines 514-634: the core of
`Processor::process_update_config`, entered after the admin-signer and
config-PDA checks, acting on the deserialized stored config. -/
def process_update_config (config : AstrapeConfig) (param : Nat)
    (base_interest_rate pyth_price_max_age min_commission_rate
      max_commission_rate min_deposit_amount max_deposit_amount : Option Nat)
    (deposit_periods : Option (List Nat)) : Except AstrapeError AstrapeConfig :=
  match param with
  | 0 =>
    match base_interest_rate with
    | some rate => .ok { config with base_interest_rate := rate }
    | none => .ok config
  | 1 =>
    match pyth_price_max_age with
    | some age =>
      if age = 0 then .error (.ValueOutOfRange 0)
      else .ok { config with pyth_price_max_age := age }
    | none => .ok config
  | 2 =>
    match min_commission_rate with
    | some min_rate =>
      if min_rate > config.max_commission_rate then
        .error (.ValueOutOfRange min_rate)
      else .ok { config with min_commission_rate := min_rate }
    | none => .ok config
  | 3 =>
    match max_commission_rate with
    | some max_rate =>
      if max_rate < config.min_commission_rate then
        .error (.ValueOutOfRange max_rate)
      else .ok { config with max_commission_rate := max_rate }
    | none => .ok config
  | 4 =>
    match min_deposit_amount with
    | some min_amount =>
      if min_amount > config.max_deposit_amount then
        .error (.ValueOutOfRange min_amount)
      else .ok { config with min_deposit_amount := min_amount }
    | none => .ok config
  | 5 =>
    match max_deposit_amount with
    | some max_amount =>
      if max_amount < config.min_deposit_amount then
        .error (.ValueOutOfRange max_amount)
      else .ok { config with max_deposit_amount := max_amount }
    | none => .ok config
  | 6 =>
    match deposit_periods with
    | some periods =>
      if periods.isEmpty then .error .InvalidInput
      else .ok { config with deposit_periods := periods }
    | none => .ok config
  | p => .error (.InvalidConfigParam p)

/-- `processor.rs` lines 934-1107: the core of
`Processor::process_deposit_collateral`, entered after the PDA/ATA checks and
config deserialization.

* `user_deposit_account_empty` is the `data_is_empty()` test; the account
  creation in the empty branch is a rent-funded system CPI, modelled as
  always succeeding (its effect is rolled back with everything else on a
  later failure).
* `price` is the outcome of the Pyth steps (discriminator check,
  deserialization, feed id, `get_price_no_older_than`, exponent scaling):
  `none` models any failure of those steps, `some p` the resulting scaled
  `u64` price.
* Token balances (`user_collateral_balance`, `collateral_pool_balance`,
  `interest_pool_balance`, `user_interest_balance`) model the SPL ledger; a
  `transfer` CPI from an account with an insufficient balance fails with an
  SPL token error, not an `AstrapeError`.
* `unlock_slot = clock.slot + deposit_period` is an unchecked `u64`
  addition. -/
def process_deposit_collateral (config : AstrapeConfig)
    (user_deposit_account_empty : Bool)
    (amount deposit_period commission_rate : Nat)
    (price : Option Nat) (current_slot : Nat)
    (user_collateral_balance collateral_pool_balance
      interest_pool_balance user_interest_balance : Nat) :
    Except ProgError (UserDeposit × Nat × Nat × Nat × Nat) :=
  if ¬ user_deposit_account_empty then
    .error (.astrape .UserDepositAlreadyExists)
  else if amount < config.min_deposit_amount ∨ config.max_deposit_amount < amount then
    .error (.astrape (.DepositAmountOutOfBounds amount))
  else if commission_rate < config.min_commission_rate
      ∨ config.max_commission_rate < commission_rate then
    .error (.astrape (.CommissionRateOutOfBounds commission_rate))
  else if ¬ config.deposit_periods.contains deposit_period then
    .error (.astrape (.InvalidLockPeriod deposit_period))
  else
    match price with
    | none => .error (.astrape .GetPriceError)
    | some p =>
      let interest_amount :=
        calculate_interest_amount amount p commission_rate deposit_period config
      if user_collateral_balance < amount then
        .error .splInsufficientFunds
      else if interest_pool_balance < interest_amount then
        .error .splInsufficientFunds
      else
        .ok
          ({ amount := amount
             deposit_slot := current_slot
             unlock_slot := wrap64 (current_slot + deposit_period)
             interest_received := interest_amount
             state := .Deposited
             commission_rate := commission_rate },
            user_collateral_balance - amount,
            collateral_pool_balance + amount,
            interest_pool_balance - interest_amount,
            user_interest_balance + interest_amount)

/-- `processor.rs` lines 1109-1199: the core of
`Processor::process_request_withdrawal_early`, entered after the PDA/ATA
checks, on the deserialized deposit record.  Returns the updated record and
the updated `(user interest, interest pool)` balances. -/
def process_request_withdrawal_early (deposit : UserDeposit)
    (current_slot user_interest_balance interest_pool_balance : Nat) :
    Except AstrapeError (UserDeposit × Nat × Nat) :=
  if deposit.state ≠ .Deposited then
    .error (.InvalidDepositState deposit.state.toU8 UserDepositState.Deposited.toU8)
  else
    match calculate_interest_to_return deposit current_slot with
    | .error e => .error e
    | .ok interest_to_return =>
      if user_interest_balance < interest_to_return then
        .error (.InsufficientInterestBalance user_interest_balance)
      else
        .ok ({ deposit with state := .WithdrawRequested },
          user_interest_balance - interest_to_return,
          interest_pool_balance + interest_to_return)

/-- `processor.rs` lines 1201-1243: the core of
`Processor::process_request_withdrawal`, entered after the deposit-PDA check,
on the deserialized deposit record. -/
def process_request_withdrawal (deposit : UserDeposit) (current_slot : Nat) :
    Except AstrapeError UserDeposit :=
  if deposit.state ≠ .WithdrawRequested then
    .error (.InvalidDepositState deposit.state.toU8
      UserDepositState.WithdrawRequested.toU8)
  else if current_slot < deposit.unlock_slot then
    .error (.NotUnlockedYet current_slot deposit.unlock_slot)
  else
    .ok { deposit with state := .WithdrawReady }

/-- `processor.rs` lines 719-791: the core of
`Processor::process_admin_prepare_withdrawal`, entered after the
admin-signer and PDA checks.  The admin-to-staging-pool transfer has no
pre-check, so an underfunded admin account surfaces as an SPL token failure.
Returns the updated record and the updated `(admin, withdrawal pool)`
balances. -/
def process_admin_prepare_withdrawal (deposit : UserDeposit)
    (admin_token_balance withdrawal_pool_balance : Nat) :
    Except ProgError (UserDeposit × Nat × Nat) :=
  if deposit.state ≠ .WithdrawRequested then
    .error (.astrape (.InvalidDepositState deposit.state.toU8
      UserDepositState.WithdrawRequested.toU8))
  else if admin_token_balance < deposit.amount then
    .error .splInsufficientFunds
  else
    .ok ({ deposit with state := .WithdrawReady },
      admin_token_balance - deposit.amount,
      withdrawal_pool_balance + deposit.amount)

/-- `processor.rs` lines 1245-1327: the core of
`Processor::process_withdraw_collateral`, entered after the PDA checks, on
the deserialized deposit record and the unpacked withdrawal-pool balance.
Returns the updated record and the updated `(withdrawal pool, user)`
balances. -/
def process_withdraw_collateral (deposit : UserDeposit)
    (withdrawal_pool_balance user_token_balance : Nat) :
    Except AstrapeError (UserDeposit × Nat × Nat) :=
  if deposit.state ≠ .WithdrawReady then
    .error (.InvalidDepositState deposit.state.toU8
      UserDepositState.WithdrawReady.toU8)
  else if withdrawal_pool_balance < deposit.amount then
    .error (.InsufficientPoolBalance withdrawal_pool_balance)
  else
    .ok ({ deposit with state := .WithdrawCompleted },
      withdrawal_pool_balance - deposit.amount,
      user_token_balance + deposit.amount)

/-- C2: each lifecycle operation, invoked on a record whose state is not the
single source state §4.3 enumerates for it (`Deposited` for
`RequestWithdrawalEarly`, `WithdrawRequested` for `RequestWithdrawal` and
`AdminPrepareWithdrawal`, `WithdrawReady` for `WithdrawCollateral`), fails
with the state-mismatch error reporting the observed and expected state, and
— the instruction aborting — leaves the record unchanged; in particular
`RequestWithdrawal` on a record still in `Deposited` fails with the
state-mismatch error. -/
theorem state_machine_exclusivity (d : UserDeposit)
    (current_slot user_interest_balance interest_pool_balance
      admin_token_balance withdrawal_pool_balance user_token_balance : Nat) :
    (d.state ≠ .Deposited →
      process_request_withdrawal_early d current_slot user_interest_balance
        interest_pool_balance =
        .error (.InvalidDepositState d.state.toU8 0)) ∧
    (d.state ≠ .WithdrawRequested →
      process_request_withdrawal d current_slot =
        .error (.InvalidDepositState d.state.toU8 1)) ∧
    (d.state ≠ .WithdrawRequested →
      process_admin_prepare_withdrawal d admin_token_balance
        withdrawal_pool_balance =
        .error (.astrape (.InvalidDepositState d.state.toU8 1))) ∧
    (d.state ≠ .WithdrawReady →
      process_withdraw_collateral d withdrawal_pool_balance user_token_balance =
        .error (.InvalidDepositState d.state.toU8 2)) ∧
    (d.state = .Deposited →
      process_request_withdrawal d current_slot =
        .error (.InvalidDepositState 0 1)) := by
  refine ⟨?_, ?_, ?_, ?_, ?_⟩ <;> intro h <;>
    simp [process_request_withdrawal_early, process_request_withdrawal,
      process_admin_prepare_withdrawal, process_withdraw_collateral,
      UserDepositState.toU8, h]

/-- Witness for C2 at concrete records. -/
theorem state_machine_exclusivity_witness :
    (process_request_withdrawal_early ⟨100, 0, 10, 5, .WithdrawRequested, 0⟩
        3 0 0 = .error (.InvalidDepositState 1 0)) ∧
    (process_request_withdrawal ⟨100, 0, 10, 5, .Deposited, 0⟩ 3 =
      .error (.InvalidDepositState 0 1)) ∧
    (process_admin_prepare_withdrawal ⟨100, 0, 10, 5, .Deposited, 0⟩ 0 0 =
      .error (.astrape (.InvalidDepositState 0 1))) ∧
    (process_withdraw_collateral ⟨100, 0, 10, 5, .Deposited, 0⟩ 0 0 =
      .error (.InvalidDepositState 0 2)) :=
  ⟨(state_machine_exclusivity ⟨100, 0, 10, 5, .WithdrawRequested, 0⟩
      3 0 0 0 0 0).1 (by decide),
    (state_machine_exclusivity ⟨100, 0, 10, 5, .Deposited, 0⟩
      3 0 0 0 0 0).2.1 (by decide),
    (state_machine_exclusivity ⟨100, 0, 10, 5, .Deposited, 0⟩
      3 0 0 0 0 0).2.2.1 (by decide),
    (state_machine_exclusivity ⟨100, 0, 10, 5, .Deposited, 0⟩
      3 0 0 0 0 0).2.2.2.1 (by decide)⟩

/-- C4: `WithdrawCollateral` requires the record in `WithdrawReady`; with a
withdrawal-staging pool balance below the deposit amount it fails with
`InsufficientPoolBalance`; on success it moves exactly the deposit amount
from the staging pool to the user and the record becomes the same record
with state `WithdrawCompleted` (all other fields unchanged). -/
theorem withdraw_collateral_correct (d : UserDeposit)
    (pool_balance user_balance : Nat) :
    (d.state ≠ .WithdrawReady →
      process_withdraw_collateral d pool_balance user_balance =
        .error (.InvalidDepositState d.state.toU8 2)) ∧
    (d.state = .WithdrawReady → pool_balance < d.amount →
      process_withdraw_collateral d pool_balance user_balance =
        .error (.InsufficientPoolBalance pool_balance)) ∧
    (d.state = .WithdrawReady → d.amount ≤ pool_balance →
      process_withdraw_collateral d pool_balance user_balance =
        .ok ({ d with state := .WithdrawCompleted },
          pool_balance - d.amount, user_balance + d.amount)) := by
  refine ⟨?_, ?_, ?_⟩
  · intro h
    simp [process_withdraw_collateral, UserDepositState.toU8, h]
  · intro h1 h2
    simp [process_withdraw_collateral, h1, h2]
  · intro h1 h2
    simp [process_withdraw_collateral, h1, Nat.not_lt.2 h2]

/-- Witness for C4 at a concrete record and balances. -/
theorem withdraw_collateral_correct_witness :
    (process_withdraw_collateral ⟨50, 0, 10, 5, .Deposited, 7⟩ 100 3 =
      .error (.InvalidDepositState 0 2)) ∧
    (process_withdraw_collateral ⟨50, 0, 10, 5, .WithdrawReady, 7⟩ 20 3 =
      .error (.InsufficientPoolBalance 20)) ∧
    (process_withdraw_collateral ⟨50, 0, 10, 5, .WithdrawReady, 7⟩ 100 3 =
      .ok (⟨50, 0, 10, 5, .WithdrawCompleted, 7⟩, 50, 53)) :=
  ⟨(withdraw_collateral_correct ⟨50, 0, 10, 5, .Deposited, 7⟩ 100 3).1
      (by decide),
    (withdraw_collateral_correct ⟨50, 0, 10, 5, .WithdrawReady, 7⟩ 20 3).2.1
      rfl (by decide),
    (withdraw_collateral_correct ⟨50, 0, 10, 5, .WithdrawReady, 7⟩ 100 3).2.2
      rfl (by decide)⟩

/-- C5: any amount strictly below `min_deposit_amount` or strictly above
`max_deposit_amount` makes `DepositCollateral` fail with
`DepositAmountOutOfBounds` — before any price read, interest computation or
fund transfer — and the instruction abort rolls back the record creation, so
no deposit record exists afterwards and no funds move. -/
theorem deposit_bounds_enforced (config : AstrapeConfig)
    (amount deposit_period commission_rate : Nat) (price : Option Nat)
    (current_slot user_collateral_balance collateral_pool_balance
      interest_pool_balance user_interest_balance : Nat)
    (h : amount < config.min_deposit_amount ∨ config.max_deposit_amount < amount) :
    process_deposit_collateral config true amount deposit_period
      commission_rate price current_slot user_collateral_balance
      collateral_pool_balance interest_pool_balance user_interest_balance =
      .error (.astrape (.DepositAmountOutOfBounds amount)) := by
  simp [process_deposit_collateral, h]

/-- On `u64`-ranged inputs with `deposit_slot ≤ current_slot` and
`deposit_slot < unlock_slot`, `calculate_interest_to_return` succeeds and
returns the floor quotient `interest_received * elapsed / total`, truncated
to `u64` by the final `as u64` cast. -/
theorem calculate_interest_to_return_ok (d : UserDeposit) (current_slot : Nat)
    (hic : d.interest_received < U64_MOD) (hcs : current_slot < U64_MOD)
    (hun : d.unlock_slot < U64_MOD)
    (hdc : d.deposit_slot ≤ current_slot) (hdu : d.deposit_slot < d.unlock_slot) :
    calculate_interest_to_return d current_slot =
      .ok (wrap64 (d.interest_received * (current_slot - d.deposit_slot) /
        (d.unlock_slot - d.deposit_slot))) := by
  have ha := wsub64_of_le hdc hcs
  have ht := wsub64_of_le (le_of_lt hdu) hun
  have hprod : d.interest_received * (current_slot - d.deposit_slot) < U128_MOD := by
    have h1 : d.interest_received * (current_slot - d.deposit_slot) ≤
        (U64_MOD - 1) * (U64_MOD - 1) :=
      Nat.mul_le_mul (by omega) (by omega)
    have h2 : (U64_MOD - 1) * (U64_MOD - 1) < U128_MOD := by
      norm_num [U64_MOD, U128_MOD]
    omega
  have htne : d.unlock_slot - d.deposit_slot ≠ 0 := by omega
  simp [calculate_interest_to_return, ha, ht, Nat.not_le.2 hprod, htne]

/-- C10: for a `u64` deposit record and a `u64` `current_slot` at or past
`deposit_slot`, the `u128` `checked_mul` in `calculate_interest_to_return`
never overflows — the `ArithmeticOverflow` branch is unreachable — and the
only possible error is `DivisionByZero`, occurring exactly when
`unlock_slot = deposit_slot`. -/
theorem interest_to_return_error_characterization (d : UserDeposit)
    (current_slot : Nat)
    (hic : d.interest_received < U64_MOD) (hdep : d.deposit_slot < U64_MOD)
    (hun : d.unlock_slot < U64_MOD) (hcs : current_slot < U64_MOD)
    (hge : d.deposit_slot ≤ current_slot) :
    calculate_interest_to_return d current_slot ≠ .error .ArithmeticOverflow ∧
    (calculate_interest_to_return d current_slot = .error .DivisionByZero ↔
      d.unlock_slot = d.deposit_slot) := by
  have ha : wsub64 current_slot d.deposit_slot < U64_MOD := wsub64_lt _ _
  have hprod : d.interest_received * wsub64 current_slot d.deposit_slot <
      U128_MOD := by
    have h1 : d.interest_received * wsub64 current_slot d.deposit_slot ≤
        (U64_MOD - 1) * (U64_MOD - 1) :=
      Nat.mul_le_mul (by omega) (by omega)
    have h2 : (U64_MOD - 1) * (U64_MOD - 1) < U128_MOD := by
      norm_num [U64_MOD, U128_MOD]
    omega
  have hiff := wsub64_eq_zero_iff hun hdep
  by_cases ht : wsub64 d.unlock_slot d.deposit_slot = 0
  · have heq : d.unlock_slot = d.deposit_slot := hiff.1 ht
    refine ⟨?_, ?_⟩
    · simp [calculate_interest_to_return, Nat.not_le.2 hprod, ht]
    · simpa [calculate_interest_to_return, Nat.not_le.2 hprod, ht] using heq
  · have hne : ¬ d.unlock_slot = d.deposit_slot := fun he => ht (hiff.2 he)
    simp [calculate_interest_to_return, Nat.not_le.2 hprod, ht, hne]

/-- Witness for C10 at a concrete record. -/
theorem interest_to_return_error_characterization_witness :
    calculate_interest_to_return ⟨5, 3, 3, 9, .Deposited, 0⟩ 7 ≠
      .error .ArithmeticOverflow ∧
    (calculate_interest_to_return ⟨5, 3, 3, 9, .Deposited, 0⟩ 7 =
        .error .DivisionByZero ↔
      (⟨5, 3, 3, 9, .Deposited, 0⟩ : UserDeposit).unlock_slot =
        (⟨5, 3, 3, 9, .Deposited, 0⟩ : UserDeposit).deposit_slot) :=
  interest_to_return_error_characterization ⟨5, 3, 3, 9, .Deposited, 0⟩ 7
    (by norm_num [U64_MOD]) (by norm_num [U64_MOD]) (by norm_num [U64_MOD])
    (by norm_num [U64_MOD]) (by norm_num)

/-- C8: exiting at exactly half of an even lock duration claws back exactly
`⌊interest_credited / 2⌋`. -/
theorem clawback_half_duration (ic T : Nat) (hT2 : T % 2 = 0) (hT0 : 0 < T)
    (hic : ic < U64_MOD) (hT : T < U64_MOD) :
    compute_clawback ic (T / 2) T = .ok (ic / 2) := by
  have h := calculate_interest_to_return_ok
    { amount := 0, deposit_slot := 0, unlock_slot := T, interest_received := ic,
      state := .Deposited, commission_rate := 0 } (T / 2)
    hic (by omega) hT (Nat.zero_le _) hT0
  unfold compute_clawback
  rw [h]
  have hm : 0 < T / 2 := by omega
  have hTeq : 2 * (T / 2) = T := by omega
  have hq : ic * (T / 2) / T = ic / 2 := by
    nth_rewrite 2 [← hTeq]
    exact Nat.mul_div_mul_right ic 2 hm
  have hlt : ic / 2 < U64_MOD := lt_of_le_of_lt (Nat.div_le_self ic 2) hic
  simp [wrap64, hq, Nat.mod_eq_of_lt hlt]

/-- Witness for C8: half of a 10-slot lock claws back `⌊101 / 2⌋ = 50`. -/
theorem clawback_half_duration_witness :
    compute_clawback 101 (10 / 2) 10 = .ok (101 / 2) :=
  clawback_half_duration 101 10 (by norm_num) (by norm_num)
    (by norm_num [U64_MOD]) (by norm_num [U64_MOD])

/-- C3 counterexample: with `interest_credited = 2 ^ 64 - 1` and
`total_lock_duration = 1`, stepping `elapsed` from `1` to `2` makes the
clawback *decrease* (the `u128` quotient `2 ^ 65 - 2` is truncated by the
final `as u64` cast), refuting monotonicity as stated. -/
theorem clawback_monotonic_counterexample :
    compute_clawback (U64_MOD - 1) 1 1 = .ok (U64_MOD - 1) ∧
    compute_clawback (U64_MOD - 1) 2 1 = .ok (U64_MOD - 2) ∧
    U64_MOD - 2 < U64_MOD - 1 := by decide

/-- C3 amended: the clawback is monotonic non-decreasing in `elapsed` as
long as `elapsed` stays within the total lock duration (so the quotient fits
in `u64` and the final cast does not truncate), and at full duration it
returns the whole credit. -/
theorem clawback_monotonic_amended (ic e1 e2 T : Nat) (hic : ic < U64_MOD)
    (hT : T < U64_MOD) (hT0 : 0 < T) (h12 : e1 ≤ e2) (h2T : e2 ≤ T) :
    (∃ v1 v2, compute_clawback ic e1 T = .ok v1 ∧
      compute_clawback ic e2 T = .ok v2 ∧ v1 ≤ v2) ∧
    compute_clawback ic T T = .ok ic := by
  have key : ∀ e, e ≤ T → compute_clawback ic e T = .ok (ic * e / T) := by
    intro e heT
    have h := calculate_interest_to_return_ok
      { amount := 0, deposit_slot := 0, unlock_slot := T,
        interest_received := ic, state := .Deposited, commission_rate := 0 } e
      hic (by omega) hT (Nat.zero_le _) hT0
    unfold compute_clawback
    rw [h]
    have hle : ic * e / T ≤ ic := by
      have h1 : ic * e ≤ ic * T := Nat.mul_le_mul_left ic heT
      have h2 := Nat.div_le_div_right (c := T) h1
      rwa [Nat.mul_div_cancel ic hT0] at h2
    simp [wrap64, Nat.mod_eq_of_lt (lt_of_le_of_lt hle hic)]
  refine ⟨⟨ic * e1 / T, ic * e2 / T, key e1 (le_trans h12 h2T), key e2 h2T,
    Nat.div_le_div_right (Nat.mul_le_mul_left ic h12)⟩, ?_⟩
  rw [key T le_rfl, Nat.mul_div_cancel ic hT0]

/-- Witness for the amended C3 at concrete values. -/
theorem clawback_monotonic_amended_witness :
    (∃ v1 v2, compute_clawback 100 3 10 = .ok v1 ∧
      compute_clawback 100 7 10 = .ok v2 ∧ v1 ≤ v2) ∧
    compute_clawback 100 10 10 = .ok 100 :=
  clawback_monotonic_amended 100 3 7 10 (by norm_num [U64_MOD])
    (by norm_num [U64_MOD]) (by norm_num) (by norm_num) (by norm_num)

/-- C9 counterexample: a deposit with `interest_received = 1`,
`deposit_slot = 0`, `unlock_slot = 10`, read at slot `11` (strictly past
maturity): the interest to return is exactly `interest_received`, not
strictly more — `⌊1 * 11 / 10⌋ = 1`. -/
theorem interest_return_after_maturity_counterexample :
    calculate_interest_to_return ⟨5, 0, 10, 1, .Deposited, 0⟩ 11 =
      .ok (⟨5, 0, 10, 1, .Deposited, 0⟩ : UserDeposit).interest_received := by
  decide

/-- C9 amended: past maturity the interest to return is at least (not
necessarily strictly more than) `interest_received`, provided the `u128`
quotient fits in `u64` so the final cast does not truncate. -/
theorem interest_return_after_maturity_amended (d : UserDeposit)
    (current_slot : Nat)
    (hic : d.interest_received < U64_MOD) (hcs : current_slot < U64_MOD)
    (hun : d.unlock_slot < U64_MOD) (hdu : d.deposit_slot < d.unlock_slot)
    (hmat : d.unlock_slot ≤ current_slot)
    (hfit : d.interest_received * (current_slot - d.deposit_slot) /
      (d.unlock_slot - d.deposit_slot) < U64_MOD) :
    ∃ v, calculate_interest_to_return d current_slot = .ok v ∧
      d.interest_received ≤ v := by
  have hdc : d.deposit_slot ≤ current_slot := le_trans (le_of_lt hdu) hmat
  rw [calculate_interest_to_return_ok d current_slot hic hcs hun hdc hdu]
  refine ⟨_, rfl, ?_⟩
  rw [wrap64, Nat.mod_eq_of_lt hfit]
  have hTle : d.unlock_slot - d.deposit_slot ≤ current_slot - d.deposit_slot := by
    omega
  calc d.interest_received
      = d.interest_received * (d.unlock_slot - d.deposit_slot) /
          (d.unlock_slot - d.deposit_slot) :=
        (Nat.mul_div_cancel _ (by omega)).symm
    _ ≤ d.interest_received * (current_slot - d.deposit_slot) /
          (d.unlock_slot - d.deposit_slot) :=
        Nat.div_le_div_right (Nat.mul_le_mul_left _ hTle)

/-- Witness for the amended C9: `⌊20 * 11 / 10⌋ = 22 ≥ 20`. -/
theorem interest_return_after_maturity_amended_witness :
    ∃ v, calculate_interest_to_return ⟨5, 0, 10, 20, .Deposited, 0⟩ 11 =
      .ok v ∧ (⟨5, 0, 10, 20, .Deposited, 0⟩ : UserDeposit).interest_received ≤ v :=
  interest_return_after_maturity_amended ⟨5, 0, 10, 20, .Deposited, 0⟩ 11
    (by norm_num [U64_MOD]) (by norm_num [U64_MOD]) (by norm_num [U64_MOD])
    (by norm_num) (by norm_num) (by norm_num [U64_MOD])

/-- Witness for C5: an amount below the configured minimum. -/
theorem deposit_bounds_enforced_witness :
    process_deposit_collateral ⟨1, 2, 100, 60, 0, 1000, 10, 100, [1000]⟩
      true 5 1000 0 (some 3) 42 1000 0 1000 0 =
      .error (.astrape (.DepositAmountOutOfBounds 5)) :=
  deposit_bounds_enforced ⟨1, 2, 100, 60, 0, 1000, 10, 100, [1000]⟩
    5 1000 0 (some 3) 42 1000 0 1000 0 (by decide)

/-- C6 counterexample: with every other parameter valid, a zero
`pyth_price_max_age` makes `Initialize` fail with `ValueOutOfRange 0`, not
with `InvalidInput` as the claim states. -/
theorem initialize_zero_age_counterexample :
    process_initialize_core true 1 2 100 0 0 10 1 100 [100] =
      .error (.ValueOutOfRange 0) ∧
    process_initialize_core true 1 2 100 0 0 10 1 100 [100] ≠
      .error .InvalidInput := by decide

/-- C6 amended: `Initialize` fails with `AccountAlreadyInitialized` when the
config account is no longer system-owned (already holds data); then, in
order, an inverted commission pair, an inverted deposit-amount pair and an
empty period list fail with `InvalidInput`, while a zero
`pyth_price_max_age` fails with `ValueOutOfRange 0`; only when every
validation passes is the config record persisted, with exactly the supplied
values. -/
theorem initialize_validation (config_owned_by_system : Bool)
    (im cm rate age mcr xcr mda xda : Nat) (ps : List Nat) :
    (config_owned_by_system = false →
      process_initialize_core config_owned_by_system im cm rate age mcr xcr mda xda ps =
        .error .AccountAlreadyInitialized) ∧
    (config_owned_by_system = true → xcr < mcr →
      process_initialize_core config_owned_by_system im cm rate age mcr xcr mda xda ps =
        .error .InvalidInput) ∧
    (config_owned_by_system = true → mcr ≤ xcr → xda < mda →
      process_initialize_core config_owned_by_system im cm rate age mcr xcr mda xda ps =
        .error .InvalidInput) ∧
    (config_owned_by_system = true → mcr ≤ xcr → mda ≤ xda → ps = [] →
      process_initialize_core config_owned_by_system im cm rate age mcr xcr mda xda ps =
        .error .InvalidInput) ∧
    (config_owned_by_system = true → mcr ≤ xcr → mda ≤ xda → ps ≠ [] → age = 0 →
      process_initialize_core config_owned_by_system im cm rate age mcr xcr mda xda ps =
        .error (.ValueOutOfRange 0)) ∧
    (config_owned_by_system = true → mcr ≤ xcr → mda ≤ xda → ps ≠ [] → age ≠ 0 →
      process_initialize_core config_owned_by_system im cm rate age mcr xcr mda xda ps =
        .ok ⟨im, cm, rate, age, mcr, xcr, mda, xda, ps⟩) := by
  refine ⟨?_, ?_, ?_, ?_, ?_, ?_⟩
  · intro h; simp [process_initialize_core, h]
  · intro h1 h2; simp [process_initialize_core, h1, h2]
  · intro h1 h2 h3
    simp [process_initialize_core, h1, h3, Nat.not_lt.2 h2]
  · intro h1 h2 h3 h4
    simp [process_initialize_core, h1, h4, Nat.not_lt.2 h2, Nat.not_lt.2 h3]
  · intro h1 h2 h3 h4 h5
    simp [process_initialize_core, h1, h5, Nat.not_lt.2 h2, Nat.not_lt.2 h3,
      List.isEmpty_iff, h4]
  · intro h1 h2 h3 h4 h5
    simp [process_initialize_core, h1, h5, Nat.not_lt.2 h2, Nat.not_lt.2 h3,
      List.isEmpty_iff, h4]

/-- Witness for the amended C6, exercising every branch at concrete
parameters. -/
theorem initialize_validation_witness :
    (process_initialize_core false 1 2 100 60 0 10 1 100 [100] =
      .error .AccountAlreadyInitialized) ∧
    (process_initialize_core true 1 2 100 60 20 10 1 100 [100] =
      .error .InvalidInput) ∧
    (process_initialize_core true 1 2 100 60 0 10 200 100 [100] =
      .error .InvalidInput) ∧
    (process_initialize_core true 1 2 100 60 0 10 1 100 [] =
      .error .InvalidInput) ∧
    (process_initialize_core true 1 2 100 0 0 10 1 100 [100] =
      .error (.ValueOutOfRange 0)) ∧
    (process_initialize_core true 1 2 100 60 0 10 1 100 [100] =
      .ok ⟨1, 2, 100, 60, 0, 10, 1, 100, [100]⟩) :=
  ⟨(initialize_validation false 1 2 100 60 0 10 1 100 [100]).1 rfl,
    (initialize_validation true 1 2 100 60 20 10 1 100 [100]).2.1 rfl
      (by norm_num),
    (initialize_validation true 1 2 100 60 0 10 200 100 [100]).2.2.1 rfl
      (by norm_num) (by norm_num),
    (initialize_validation true 1 2 100 60 0 10 1 100 []).2.2.2.1 rfl
      (by norm_num) (by norm_num) rfl,
    (initialize_validation true 1 2 100 0 0 10 1 100 [100]).2.2.2.2.1 rfl
      (by norm_num) (by norm_num) (by decide) rfl,
    (initialize_validation true 1 2 100 60 0 10 1 100 [100]).2.2.2.2.2 rfl
      (by norm_num) (by norm_num) (by decide) (by norm_num)⟩

/-- C7: `UpdateConfig` applies exactly the selected field and leaves every
other field unchanged (so reading the config back returns the updated field
and all other fields as before); updating one bound of a min/max pair
re-validates against the other bound currently stored, and a zero
`pyth_price_max_age` or an empty period list is rejected. -/
theorem update_config_frame (config : AstrapeConfig) (v : Nat) (ps : List Nat) :
    (process_update_config config 0 (some v) none none none none none none =
      .ok { config with base_interest_rate := v }) ∧
    (v ≠ 0 →
      process_update_config config 1 none (some v) none none none none none =
        .ok { config with pyth_price_max_age := v }) ∧
    (process_update_config config 1 none (some 0) none none none none none =
      .error (.ValueOutOfRange 0)) ∧
    (v ≤ config.max_commission_rate →
      process_update_config config 2 none none (some v) none none none none =
        .ok { config with min_commission_rate := v }) ∧
    (config.max_commission_rate < v →
      process_update_config config 2 none none (some v) none none none none =
        .error (.ValueOutOfRange v)) ∧
    (config.min_commission_rate ≤ v →
      process_update_config config 3 none none none (some v) none none none =
        .ok { config with max_commission_rate := v }) ∧
    (v < config.min_commission_rate →
      process_update_config config 3 none none none (some v) none none none =
        .error (.ValueOutOfRange v)) ∧
    (v ≤ config.max_deposit_amount →
      process_update_config config 4 none none none none (some v) none none =
        .ok { config with min_deposit_amount := v }) ∧
    (config.max_deposit_amount < v →
      process_update_config config 4 none none none none (some v) none none =
        .error (.ValueOutOfRange v)) ∧
    (config.min_deposit_amount ≤ v →
      process_update_config config 5 none none none none none (some v) none =
        .ok { config with max_deposit_amount := v }) ∧
    (v < config.min_deposit_amount →
      process_update_config config 5 none none none none none (some v) none =
        .error (.ValueOutOfRange v)) ∧
    (ps ≠ [] →
      process_update_config config 6 none none none none none none (some ps) =
        .ok { config with deposit_periods := ps }) ∧
    (process_update_config config 6 none none none none none none (some []) =
      .error .InvalidInput) := by
  refine ⟨?_, ?_, ?_, ?_, ?_, ?_, ?_, ?_, ?_, ?_, ?_, ?_, ?_⟩
  · simp [process_update_config]
  · intro h; simp [process_update_config, h]
  · simp [process_update_config]
  · intro h; simp [process_update_config, Nat.not_lt.2 h]
  · intro h; simp [process_update_config, h]
  · intro h; simp [process_update_config, Nat.not_lt.2 h]
  · intro h; simp [process_update_config, h]
  · intro h; simp [process_update_config, Nat.not_lt.2 h]
  · intro h; simp [process_update_config, h]
  · intro h; simp [process_update_config, Nat.not_lt.2 h]
  · intro h; simp [process_update_config, h]
  · intro h; simp [process_update_config, List.isEmpty_iff, h]
  · simp [process_update_config]

/-- Witness for C7 at a concrete stored config, hitting both the accepting
and the rejecting side of each validation. -/
theorem update_config_frame_witness :
    (process_update_config ⟨1, 2, 100, 60, 3, 10, 5, 100, [7]⟩ 0
      (some 42) none none none none none none =
      .ok ⟨1, 2, 42, 60, 3, 10, 5, 100, [7]⟩) ∧
    (process_update_config ⟨1, 2, 100, 60, 3, 10, 5, 100, [7]⟩ 1
      none (some 9) none none none none none =
      .ok ⟨1, 2, 100, 9, 3, 10, 5, 100, [7]⟩) ∧
    (process_update_config ⟨1, 2, 100, 60, 3, 10, 5, 100, [7]⟩ 1
      none (some 0) none none none none none =
      .error (.ValueOutOfRange 0)) ∧
    (process_update_config ⟨1, 2, 100, 60, 3, 10, 5, 100, [7]⟩ 2
      none none (some 9) none none none none =
      .ok ⟨1, 2, 100, 60, 9, 10, 5, 100, [7]⟩) ∧
    (process_update_config ⟨1, 2, 100, 60, 3, 10, 5, 100, [7]⟩ 2
      none none (some 11) none none none none =
      .error (.ValueOutOfRange 11)) ∧
    (process_update_config ⟨1, 2, 100, 60, 3, 10, 5, 100, [7]⟩ 3
      none none none (some 9) none none none =
      .ok ⟨1, 2, 100, 60, 3, 9, 5, 100, [7]⟩) ∧
    (process_update_config ⟨1, 2, 100, 60, 3, 10, 5, 100, [7]⟩ 3
      none none none (some 2) none none none =
      .error (.ValueOutOfRange 2)) ∧
    (process_update_config ⟨1, 2, 100, 60, 3, 10, 5, 100, [7]⟩ 4
      none none none none (some 9) none none =
      .ok ⟨1, 2, 100, 60, 3, 10, 9, 100, [7]⟩) ∧
    (process_update_config ⟨1, 2, 100, 60, 3, 10, 5, 100, [7]⟩ 4
      none none none none (some 101) none none =
      .error (.ValueOutOfRange 101)) ∧
    (process_update_config ⟨1, 2, 100, 60, 3, 10, 5, 100, [7]⟩ 5
      none none none none none (some 9) none =
      .ok ⟨1, 2, 100, 60, 3, 10, 5, 9, [7]⟩) ∧
    (process_update_config ⟨1, 2, 100, 60, 3, 10, 5, 100, [7]⟩ 5
      none none none none none (some 2) none =
      .error (.ValueOutOfRange 2)) ∧
    (process_update_config ⟨1, 2, 100, 60, 3, 10, 5, 100, [7]⟩ 6
      none none none none none none (some [8, 9]) =
      .ok ⟨1, 2, 100, 60, 3, 10, 5, 100, [8, 9]⟩) ∧
    (process_update_config ⟨1, 2, 100, 60, 3, 10, 5, 100, [7]⟩ 6
      none none none none none none (some []) =
      .error .InvalidInput) :=
  ⟨(update_config_frame ⟨1, 2, 100, 60, 3, 10, 5, 100, [7]⟩ 42 [8, 9]).1,
    (update_config_frame ⟨1, 2, 100, 60, 3, 10, 5, 100, [7]⟩ 9 [8, 9]).2.1
      (by norm_num),
    (update_config_frame ⟨1, 2, 100, 60, 3, 10, 5, 100, [7]⟩ 9 [8, 9]).2.2.1,
    (update_config_frame ⟨1, 2, 100, 60, 3, 10, 5, 100, [7]⟩ 9 [8, 9]).2.2.2.1
      (by norm_num),
    (update_config_frame ⟨1, 2, 100, 60, 3, 10, 5, 100, [7]⟩ 11
      [8, 9]).2.2.2.2.1 (by norm_num),
    (update_config_frame ⟨1, 2, 100, 60, 3, 10, 5, 100, [7]⟩ 9
      [8, 9]).2.2.2.2.2.1 (by norm_num),
    (update_config_frame ⟨1, 2, 100, 60, 3, 10, 5, 100, [7]⟩ 2
      [8, 9]).2.2.2.2.2.2.1 (by norm_num),
    (update_config_frame ⟨1, 2, 100, 60, 3, 10, 5, 100, [7]⟩ 9
      [8, 9]).2.2.2.2.2.2.2.1 (by norm_num),
    (update_config_frame ⟨1, 2, 100, 60, 3, 10, 5, 100, [7]⟩ 101
      [8, 9]).2.2.2.2.2.2.2.2.1 (by norm_num),
    (update_config_frame ⟨1, 2, 100, 60, 3, 10, 5, 100, [7]⟩ 9
      [8, 9]).2.2.2.2.2.2.2.2.2.1 (by norm_num),
    (update_config_frame ⟨1, 2, 100, 60, 3, 10, 5, 100, [7]⟩ 2
      [8, 9]).2.2.2.2.2.2.2.2.2.2.1 (by norm_num),
    (update_config_frame ⟨1, 2, 100, 60, 3, 10, 5, 100, [7]⟩ 9
      [8, 9]).2.2.2.2.2.2.2.2.2.2.2.1 (by decide),
    (update_config_frame ⟨1, 2, 100, 60, 3, 10, 5, 100, [7]⟩ 9
      [8, 9]).2.2.2.2.2.2.2.2.2.2.2.2⟩

/-- C1 counterexample: at `amount = 2 ^ 32`, `price = 2 ^ 32` the very first
step of `calculate_interest_amount` — the unchecked `u64` product
`amount * price` — wraps to `0`, so the function silently returns interest
`0` (there is no error path at all, hence no `ArithmeticOverflow`), while
the exactly-computed interest of spec §4.4 is a large positive value.  At
this input the result is independent of floating-point rounding: the zero
product annihilates the whole factor chain. -/
theorem interest_amount_overflow_counterexample :
    calculate_interest_amount (2 ^ 32) (2 ^ 32) 0 1000
      ⟨1, 2, 100, 60, 0, 1000, 1, 1000000, [1000]⟩ = 0 ∧
    (1 : ℚ) ≤ compute_interest_spec (2 ^ 32) (2 ^ 32) 0 1000
      ⟨1, 2, 100, 60, 0, 1000, 1, 1000000, [1000]⟩ := by
  constructor
  · norm_num [calculate_interest_amount, f64_as_u64, wrap64, U64_MOD]
  · norm_num [compute_interest_spec, SLOTS_PER_YEAR, SLOTS_PER_SEC]

/-- C1 amended: `calculate_interest_amount` computes `amount * price` as an
unchecked 64-bit multiplication performed *before* any widening, and it has
no error path (its return type is a bare `u64`), so a multiplication
overflow is never reported as `ArithmeticOverflow`: it silently wraps.  In
particular, whenever the wrapped product is `0` the function returns
interest `0` whatever the exactly-computed interest is. -/
theorem interest_amount_wrapped_silently
    (amount price commission_rate deposit_period : Nat)
    (config : AstrapeConfig) (h : wrap64 (amount * price) = 0) :
    calculate_interest_amount amount price commission_rate deposit_period
      config = 0 := by
  simp [calculate_interest_amount, h, f64_as_u64]

/-- Witness for the amended C1: `2 ^ 32 * 2 ^ 32` wraps to `0` in `u64`. -/
theorem interest_amount_wrapped_silently_witness :
    calculate_interest_amount (2 ^ 32) (2 ^ 32) 7 55
      ⟨1, 2, 100, 60, 0, 1000, 1, 1000000, [55]⟩ = 0 :=
  interest_amount_wrapped_silently (2 ^ 32) (2 ^ 32) 7 55
    ⟨1, 2, 100, 60, 0, 1000, 1, 1000000, [55]⟩
    (by norm_num [wrap64, U64_MOD])

end Astrape
